import Mathlib

/-!
Verification of the semgrep-github-commenter action (src/src/index.ts).

The core pipeline is embedded shallowly: findings and reports become Lean
structures, the pure functions `createMarkdown`, `severityPriority`,
`filterFindingsBySeverity` and the pure decision part of `run` become Lean
functions that mirror the TypeScript source line by line.  JavaScript
`String.prototype.toUpperCase` agrees with Lean's ASCII `String.toUpper` on
the ASCII strings the severity table compares against, so `toUpper` embeds
the `sev.toUpperCase()` calls.
-/

/-- The ASCII fragment of JavaScript `String.prototype.toUpperCase`, which is
all the severity comparison exercises: uppercase each character.  (Defined
over the character list so that it computes by structural recursion.) -/
def toUpperCase (s : String) : String :=
  ⟨s.data.map Char.toUpper⟩

/-- A position in a file, mirroring the `line` / `col` objects of the
`SemgrepFinding` interface. -/
structure SemgrepPos where
  line : Nat
  col : Nat
deriving DecidableEq, Repr

/-- The `extra` payload of a finding: `message`, `severity`, `lines`. -/
structure SemgrepExtra where
  message : String
  severity : String
  lines : String
deriving DecidableEq, Repr

/-- One semgrep finding, mirroring the `SemgrepFinding` interface:
`check_id`, `path`, `start`, `end`, `extra`. -/
structure SemgrepFinding where
  check_id : String
  path : String
  start : SemgrepPos
  stop : SemgrepPos
  extra : SemgrepExtra
deriving DecidableEq, Repr

/-- The parsed report, mirroring the `SemgrepResults` interface with its two
optional arrays `errors` and `results`.  An absent or `null` field is `none`;
a present array (possibly empty) is `some`. -/
structure SemgrepResults where
  errors : Option (List SemgrepFinding)
  results : Option (List SemgrepFinding)
deriving DecidableEq, Repr

/-- One rendered block of `createMarkdown`s `for` loop (the five
`markdown +=` lines inside the loop body, in source order). -/
def findingBlock (owner repo ref : String) (finding : SemgrepFinding) : String :=
  let severity := toUpperCase finding.extra.severity
  "### " ++ severity ++ ": " ++ finding.check_id ++ "\n" ++
  "[**File:** `" ++ finding.path ++ "`](https://github.com/" ++ owner ++ "/" ++
    repo ++ "/blob/" ++ ref ++ "/" ++ finding.path ++ "#L" ++
    toString finding.start.line ++ ")\n" ++
  "**Location:** Line " ++ toString finding.start.line ++ ", Column " ++
    toString finding.start.col ++ "\n\n" ++
  finding.extra.message ++ "\n\n" ++
  "```\n" ++
  finding.extra.lines ++
  "\n```\n\n"

/-- Embeds `createMarkdown`: header, then either the success line (empty
input) or the count line followed by one block per finding in input order. -/
def createMarkdown (findings : List SemgrepFinding)
    (owner repo ref : String) : String :=
  let markdown := "# Semgrep Scan Results\n\n"
  if findings.length = 0 then
    markdown ++ "✅ No issues found!\n"
  else
    markdown ++ ("Found " ++ toString findings.length ++ " issue(s):\n\n") ++
      String.join (findings.map (findingBlock owner repo ref))

/-- Embeds `severityPriority`: a case-insensitive (via `toUpperCase`) switch
over the five known labels, with `default` (and `INFO`) returning 1. -/
def severityPriority (sev : String) : Nat :=
  match toUpperCase sev with
  | "CRITICAL" => 5
  | "HIGH" => 4
  | "MEDIUM" => 3
  | "LOW" => 2
  | _ => 1

/-- Embeds `filterFindingsBySeverity`: keep the findings whose severity rank
is at least the threshold's rank, via `Array.prototype.filter` /
`List.filter`. -/
def filterFindingsBySeverity (findings : List SemgrepFinding)
    (threshold : String) : List SemgrepFinding :=
  findings.filter
    (fun f => severityPriority f.extra.severity ≥ severityPriority threshold)

/-- Embeds line 100 of `run`:
`const findings = parsed.results || parsed.errors || [];`.
Every JavaScript array, including the empty one, is truthy, so `||` selects
the first field that is present (non-`undefined`/`null`). -/
def normalizeFindings (parsed : SemgrepResults) : List SemgrepFinding :=
  match parsed.results with
  | some rs => rs
  | none =>
    match parsed.errors with
    | some es => es
    | none => []

/-- Embeds line 80 of `run`:
`core.getInput("severity-threshold") || "INFO"`.  `getInput` yields the empty
string for a missing input, and the empty string is the only falsy string. -/
def defaultThreshold (input : String) : String :=
  if input = "" then "INFO" else input

/-- Outcome of the pure part of `run`: the markdown that would be posted and
the failure message passed to `core.setFailed`, if any. -/
structure RunOutcome where
  markdown : String
  failure : Option String
deriving DecidableEq, Repr

/-- Embeds the pure pipeline of `run` (lines 80-137): default the threshold,
normalize the report, filter, render, then fail with the count message iff
any filtered findings remain. -/
def runCore (parsed : SemgrepResults) (thresholdInput owner repo ref : String) :
    RunOutcome :=
  let severityThreshold := defaultThreshold thresholdInput
  let findings := normalizeFindings parsed
  let filteredFindings := filterFindingsBySeverity findings severityThreshold
  let markdown := createMarkdown filteredFindings owner repo ref
  { markdown := markdown
    failure :=
      if filteredFindings.length > 0 then
        some ("Found " ++ toString filteredFindings.length ++ " " ++
          severityThreshold ++ "+ severity issue(s).")
      else
        none }

/-! ### Helper lemmas -/

/-- Every severity rank is at least 1: each arm of the switch returns 1-5. -/
theorem one_le_severityPriority (s : String) : 1 ≤ severityPriority s := by
  unfold severityPriority
  split <;> omega

/-- The keep-predicate of `filterFindingsBySeverity` at threshold `t2` implies
the one at a threshold `t1` of lower or equal rank. -/
theorem keep_mono (t1 t2 : String)
    (h : severityPriority t1 ≤ severityPriority t2) (f : SemgrepFinding)
    (h2 : severityPriority f.extra.severity ≥ severityPriority t2) :
    severityPriority f.extra.severity ≥ severityPriority t1 :=
  le_trans h h2

/-! ### Claim theorems -/

/-- C1: normalization returns `results` whenever it is defined (even when
`errors` is also defined - never merged), otherwise `errors` whenever it is
defined, otherwise the empty sequence, each returned unchanged (order
preserved). -/
theorem normalizeFindings_selects (parsed : SemgrepResults) :
    (∀ rs, parsed.results = some rs → normalizeFindings parsed = rs) ∧
    (parsed.results = none →
      ∀ es, parsed.errors = some es → normalizeFindings parsed = es) ∧
    (parsed.results = none → parsed.errors = none →
      normalizeFindings parsed = []) := by
  obtain ⟨e, r⟩ := parsed
  refine ⟨?_, ?_, ?_⟩
  · intro rs h
    simp only at h
    subst h
    rfl
  · intro h es h2
    simp only at h h2
    subst h
    subst h2
    rfl
  · intro h h2
    simp only at h h2
    subst h
    subst h2
    rfl

/-- C1 witness: with both fields defined, `results` is selected unchanged. -/
theorem normalizeFindings_selects_witness :
    normalizeFindings
      { errors :=
          some [{ check_id := "e", path := "b.py", start := ⟨1, 1⟩,
                  stop := ⟨1, 2⟩,
                  extra := { message := "m", severity := "LOW",
                             lines := "y" } }]
        results :=
          some [{ check_id := "r", path := "a.py", start := ⟨2, 3⟩,
                  stop := ⟨2, 4⟩,
                  extra := { message := "n", severity := "HIGH",
                             lines := "z" } }] } =
      [{ check_id := "r", path := "a.py", start := ⟨2, 3⟩, stop := ⟨2, 4⟩,
         extra := { message := "n", severity := "HIGH", lines := "z" } }] :=
  (normalizeFindings_selects _).1 _ rfl

/-- C2: the severity rank function maps every string case-insensitively
(via `toUpperCase`) to CRITICAL:5, HIGH:4, MEDIUM:3, LOW:2, INFO:1, and every
string outside the five labels maps to rank 1, INFO's rank. -/
theorem severityPriority_table (s : String) :
    (toUpperCase s = "CRITICAL" → severityPriority s = 5) ∧
    (toUpperCase s = "HIGH" → severityPriority s = 4) ∧
    (toUpperCase s = "MEDIUM" → severityPriority s = 3) ∧
    (toUpperCase s = "LOW" → severityPriority s = 2) ∧
    (toUpperCase s = "INFO" → severityPriority s = 1) ∧
    (toUpperCase s ∉ (["CRITICAL", "HIGH", "MEDIUM", "LOW", "INFO"] :
        List String) → severityPriority s = 1) ∧
    severityPriority "INFO" = 1 := by
  unfold severityPriority
  refine ⟨fun h => by rw [h]; decide, fun h => by rw [h]; decide,
    fun h => by rw [h]; decide, fun h => by rw [h]; decide,
    fun h => by rw [h]; decide, ?_, by decide⟩
  intro h
  simp only [List.mem_cons, List.not_mem_nil, or_false] at h
  push_neg at h
  obtain ⟨h1, h2, h3, h4, h5⟩ := h
  split <;> simp_all

/-- C2 witness: lowercase spellings hit the table and an unknown label gets
rank 1, INFO's rank. -/
theorem severityPriority_table_witness :
    severityPriority "high" = 4 ∧ severityPriority "weird" = 1 :=
  ⟨(severityPriority_table "high").2.1 rfl,
   (severityPriority_table "weird").2.2.2.2.2.1 (by decide)⟩

/-- C3: the filter returns exactly the findings whose severity rank is at
least the threshold's rank, as a subsequence of the input (original order
preserved); being a total Lean function over all severity and threshold
strings, it never fails. -/
theorem filterFindingsBySeverity_spec (findings : List SemgrepFinding)
    (threshold : String) :
    List.Sublist (filterFindingsBySeverity findings threshold) findings ∧
    (∀ f, f ∈ filterFindingsBySeverity findings threshold ↔
      f ∈ findings ∧
        severityPriority f.extra.severity ≥ severityPriority threshold) ∧
    filterFindingsBySeverity findings threshold =
      findings.filter (fun f =>
        severityPriority f.extra.severity ≥ severityPriority threshold) := by
  refine ⟨List.filter_sublist _, ?_, rfl⟩
  intro f
  unfold filterFindingsBySeverity
  simp [List.mem_filter]

/-- C3 witness: on a LOW and a CRITICAL finding with threshold HIGH, only the
CRITICAL one is kept, and it is a subsequence of the input. -/
theorem filterFindingsBySeverity_spec_witness :
    List.Sublist
      (filterFindingsBySeverity
        [{ check_id := "a", path := "p", start := ⟨1, 1⟩, stop := ⟨1, 2⟩,
           extra := { message := "m", severity := "LOW", lines := "l" } },
         { check_id := "b", path := "q", start := ⟨2, 2⟩, stop := ⟨2, 3⟩,
           extra := { message := "n", severity := "CRITICAL",
                      lines := "k" } }] "HIGH")
      [{ check_id := "a", path := "p", start := ⟨1, 1⟩, stop := ⟨1, 2⟩,
         extra := { message := "m", severity := "LOW", lines := "l" } },
       { check_id := "b", path := "q", start := ⟨2, 2⟩, stop := ⟨2, 3⟩,
         extra := { message := "n", severity := "CRITICAL",
                    lines := "k" } }] :=
  (filterFindingsBySeverity_spec _ "HIGH").1

/-- C7: the filter is idempotent - filtering an already-filtered sequence at
the same threshold returns it unchanged. -/
theorem filterFindingsBySeverity_idem (findings : List SemgrepFinding)
    (threshold : String) :
    filterFindingsBySeverity (filterFindingsBySeverity findings threshold)
        threshold =
      filterFindingsBySeverity findings threshold := by
  unfold filterFindingsBySeverity
  rw [List.filter_filter]
  simp

/-- C8: filtering at threshold INFO (rank 1, the minimum) is the identity,
and INFO is exactly the default the run substitutes for a missing threshold
input, so the default admits every finding. -/
theorem filterFindingsBySeverity_INFO_id (findings : List SemgrepFinding) :
    filterFindingsBySeverity findings "INFO" = findings ∧
    defaultThreshold "" = "INFO" ∧
    filterFindingsBySeverity findings (defaultThreshold "") = findings := by
  have key : filterFindingsBySeverity findings "INFO" = findings := by
    unfold filterFindingsBySeverity
    rw [List.filter_eq_self]
    intro f _
    have h1 : severityPriority "INFO" = 1 := by decide
    simp only [ge_iff_le, h1, decide_eq_true_eq]
    exact one_le_severityPriority _
  exact ⟨key, rfl, key⟩

/-- C4: on the empty finding sequence the renderer returns exactly the
header line, a blank line and the success line, for any owner, repo and
ref - no issue count, no further formatting. -/
theorem createMarkdown_empty (owner repo ref : String) :
    createMarkdown [] owner repo ref =
      "# Semgrep Scan Results\n\n✅ No issues found!\n" := rfl

/-- C5: on a non-empty finding sequence of length N the rendered document is
the header followed by the count line containing the literal substring
`Found N issue(s):` and then one formatted block per finding in input
order. -/
theorem createMarkdown_nonempty (findings : List SemgrepFinding)
    (owner repo ref : String) (h : findings ≠ []) :
    createMarkdown findings owner repo ref =
      "# Semgrep Scan Results\n\n" ++
        ("Found " ++ toString findings.length ++ " issue(s):\n\n") ++
        String.join (findings.map (findingBlock owner repo ref)) ∧
    ("Found " ++ toString findings.length ++ " issue(s):").data <:+:
      (createMarkdown findings owner repo ref).data := by
  have hmain : createMarkdown findings owner repo ref =
      "# Semgrep Scan Results\n\n" ++
        ("Found " ++ toString findings.length ++ " issue(s):\n\n") ++
        String.join (findings.map (findingBlock owner repo ref)) := by
    unfold createMarkdown
    rw [if_neg (fun hc => h (List.length_eq_zero.mp hc))]
  refine ⟨hmain, ?_⟩
  rw [hmain]
  have hlit : (" issue(s):\n\n" : String).data =
      (" issue(s):" : String).data ++ ("\n\n" : String).data := rfl
  refine ⟨("# Semgrep Scan Results\n\n" : String).data,
    ("\n\n" : String).data ++
      (String.join (findings.map (findingBlock owner repo ref))).data, ?_⟩
  simp only [String.data_append, hlit, List.append_assoc, List.cons_append,
    List.nil_append]

/-- C5 witness: a one-element sequence yields the count line `Found 1
issue(s):` as a substring of the rendered document. -/
theorem createMarkdown_nonempty_witness :
    createMarkdown
        [{ check_id := "c", path := "p.py", start := ⟨3, 4⟩, stop := ⟨3, 5⟩,
           extra := { message := "m", severity := "LOW", lines := "w" } }]
        "o" "r" "m" =
      "# Semgrep Scan Results\n\n" ++
        ("Found " ++
          toString
            ([{ check_id := "c", path := "p.py", start := ⟨3, 4⟩,
                stop := ⟨3, 5⟩,
                extra := { message := "m", severity := "LOW",
                           lines := "w" } }] :
              List SemgrepFinding).length ++ " issue(s):\n\n") ++
        String.join
          (([{ check_id := "c", path := "p.py", start := ⟨3, 4⟩,
               stop := ⟨3, 5⟩,
               extra := { message := "m", severity := "LOW",
                          lines := "w" } }] :
              List SemgrepFinding).map (findingBlock "o" "r" "m")) ∧
    ("Found " ++
        toString
          ([{ check_id := "c", path := "p.py", start := ⟨3, 4⟩, stop := ⟨3, 5⟩,
              extra := { message := "m", severity := "LOW",
                         lines := "w" } }] :
            List SemgrepFinding).length ++ " issue(s):").data <:+:
      (createMarkdown
          [{ check_id := "c", path := "p.py", start := ⟨3, 4⟩, stop := ⟨3, 5⟩,
             extra := { message := "m", severity := "LOW", lines := "w" } }]
          "o" "r" "m").data :=
  createMarkdown_nonempty _ "o" "r" "m" (by decide)

set_option maxRecDepth 100000 in
/-- C6: rendering the single HIGH finding of the concrete scenario produces
a document containing the heading, the permalink target, the location text,
the message and the fenced snippet. -/
theorem createMarkdown_scenario :
    ("### HIGH: rule-1".data <:+:
      (createMarkdown
        [{ check_id := "rule-1", path := "a.py", start := ⟨10, 2⟩,
           stop := ⟨10, 2⟩,
           extra := { message := "bad", severity := "HIGH",
                      lines := "x=1" } }] "o" "r" "main").data) ∧
    ("https://github.com/o/r/blob/main/a.py#L10".data <:+:
      (createMarkdown
        [{ check_id := "rule-1", path := "a.py", start := ⟨10, 2⟩,
           stop := ⟨10, 2⟩,
           extra := { message := "bad", severity := "HIGH",
                      lines := "x=1" } }] "o" "r" "main").data) ∧
    ("Line 10, Column 2".data <:+:
      (createMarkdown
        [{ check_id := "rule-1", path := "a.py", start := ⟨10, 2⟩,
           stop := ⟨10, 2⟩,
           extra := { message := "bad", severity := "HIGH",
                      lines := "x=1" } }] "o" "r" "main").data) ∧
    ("bad".data <:+:
      (createMarkdown
        [{ check_id := "rule-1", path := "a.py", start := ⟨10, 2⟩,
           stop := ⟨10, 2⟩,
           extra := { message := "bad", severity := "HIGH",
                      lines := "x=1" } }] "o" "r" "main").data) ∧
    ("```\nx=1\n```".data <:+:
      (createMarkdown
        [{ check_id := "rule-1", path := "a.py", start := ⟨10, 2⟩,
           stop := ⟨10, 2⟩,
           extra := { message := "bad", severity := "HIGH",
                      lines := "x=1" } }] "o" "r" "main").data) := by
  decide

/-- C9: the run fails iff the filtered finding sequence is non-empty, and
then the failure message is exactly `Found N THRESHOLD+ severity issue(s).`
with N the number of filtered findings and THRESHOLD the (defaulted)
threshold in use; otherwise no failure is reported. -/
theorem runCore_failure_spec (parsed : SemgrepResults)
    (thresholdInput owner repo ref : String) :
    (runCore parsed thresholdInput owner repo ref).failure =
      (if filterFindingsBySeverity (normalizeFindings parsed)
            (defaultThreshold thresholdInput) = [] then
        none
      else
        some ("Found " ++
          toString (filterFindingsBySeverity (normalizeFindings parsed)
            (defaultThreshold thresholdInput)).length ++ " " ++
          defaultThreshold thresholdInput ++ "+ severity issue(s).")) := by
  unfold runCore
  cases hf : filterFindingsBySeverity (normalizeFindings parsed)
      (defaultThreshold thresholdInput) with
  | nil => simp [hf]
  | cons a l => simp [hf]

/-- C10: filtering is monotone in the threshold: a filter at a lower-ranked
threshold is absorbed by one at a higher-ranked threshold, and the
higher-threshold result is a subsequence of the lower-threshold result. -/
theorem filterFindings_threshold_mono (findings : List SemgrepFinding)
    (t1 t2 : String) (h : severityPriority t1 ≤ severityPriority t2) :
    filterFindingsBySeverity (filterFindingsBySeverity findings t1) t2 =
      filterFindingsBySeverity findings t2 ∧
    List.Sublist (filterFindingsBySeverity findings t2)
      (filterFindingsBySeverity findings t1) := by
  have habs :
      filterFindingsBySeverity (filterFindingsBySeverity findings t1) t2 =
        filterFindingsBySeverity findings t2 := by
    unfold filterFindingsBySeverity
    rw [List.filter_filter]
    apply List.filter_congr
    intro f _
    by_cases h2 : severityPriority f.extra.severity ≥ severityPriority t2
    · have h1 : severityPriority f.extra.severity ≥ severityPriority t1 :=
        le_trans h h2
      simp [h1, h2]
    · simp [h2]
  refine ⟨habs, ?_⟩
  rw [← habs]
  unfold filterFindingsBySeverity
  exact List.filter_sublist _

/-- C10 witness: with thresholds LOW and HIGH on a LOW and a CRITICAL
finding, the LOW filter is absorbed by the HIGH filter. -/
theorem filterFindings_threshold_mono_witness :
    severityPriority "LOW" ≤ severityPriority "HIGH" ∧
    filterFindingsBySeverity
        (filterFindingsBySeverity
          [{ check_id := "a", path := "p", start := ⟨1, 1⟩, stop := ⟨1, 2⟩,
             extra := { message := "m", severity := "LOW", lines := "l" } },
           { check_id := "b", path := "q", start := ⟨2, 2⟩, stop := ⟨2, 3⟩,
             extra := { message := "n", severity := "CRITICAL",
                        lines := "k" } }] "LOW") "HIGH" =
      filterFindingsBySeverity
        [{ check_id := "a", path := "p", start := ⟨1, 1⟩, stop := ⟨1, 2⟩,
           extra := { message := "m", severity := "LOW", lines := "l" } },
         { check_id := "b", path := "q", start := ⟨2, 2⟩, stop := ⟨2, 3⟩,
           extra := { message := "n", severity := "CRITICAL",
                      lines := "k" } }] "HIGH" :=
  ⟨by decide, (filterFindings_threshold_mono _ "LOW" "HIGH" (by decide)).1⟩
